import Mathlib

/-!
Formal model of the tiny-rv32ima-sim RISC-V simulator.

Machine integers are modelled as `Nat` with explicit 32-bit (resp. 64-bit)
truncation where the Rust code relies on wrapping `u32`/`u64` semantics.
Fallible Rust code (`Result<T, Trap>`) is modelled with `Except Trap`;
panicking paths (`unwrap`, `unreachable!`, `todo!`) are modelled with
`Option` (`none` = panic).
-/

/-- All bits of a `u32` set; Rust `!x` on a `u32` is `x ^^^ U32MASK`. -/
def U32MASK : Nat := 0xffffffff

/-- Privilege levels, mirroring `enum Priv` in `src/lib.rs`
(`User = 0`, `Supervisor = 1`, `Machine = 3`). -/
inductive Priv where
  | User
  | Supervisor
  | Machine
deriving DecidableEq, Repr

/-- Numeric value of a privilege level (`Priv as u32` in the Rust code). -/
def Priv.toNat : Priv → Nat
  | .User => 0
  | .Supervisor => 1
  | .Machine => 3

/-- Mirrors `impl From<u32> for Priv` in `src/lib.rs`; the Rust code hits
`unreachable!` on any other value, modelled as `none`. -/
def Priv.fromU32 : Nat → Option Priv
  | 0 => some .User
  | 1 => some .Supervisor
  | 3 => some .Machine
  | _ => none

/-- Traps, mirroring `enum Trap` in `src/lib.rs`. -/
inductive Trap where
  | InstructionAddressMisaligned
  | IlligalInstruction
  | BreakPoint
  | LoadAddressMisaligned
  | LoadAccessFault
  | StoreOrAMOAddressMisaligned
  | StoreOrAMOAccessFault
  | EnvCallFromUser
  | EnvCallFromSupervisor
  | EnvCallFromMachine
  | InstructionPageFault
  | LoadPageFault
  | StoreOrAMOPageFault
  | SupervisorSoftwareInterrupt
  | SupervisorTimerInterrupt
  | SupervisorExternalInterrupt
  | UnimplementedInstruction
  | UnimplementedCSR
deriving DecidableEq, Repr

/-- Discriminant of each trap (`Trap as u32` in `src/lib.rs`; the last two
debug variants get the two values following `1 << 31 | 9`). -/
def Trap.toU32 : Trap → Nat
  | .InstructionAddressMisaligned => 0
  | .IlligalInstruction => 2
  | .BreakPoint => 3
  | .LoadAddressMisaligned => 4
  | .LoadAccessFault => 5
  | .StoreOrAMOAddressMisaligned => 6
  | .StoreOrAMOAccessFault => 7
  | .EnvCallFromUser => 8
  | .EnvCallFromSupervisor => 9
  | .EnvCallFromMachine => 11
  | .InstructionPageFault => 12
  | .LoadPageFault => 13
  | .StoreOrAMOPageFault => 15
  | .SupervisorSoftwareInterrupt => 0x80000001
  | .SupervisorTimerInterrupt => 0x80000005
  | .SupervisorExternalInterrupt => 0x80000009
  | .UnimplementedInstruction => 0x8000000a
  | .UnimplementedCSR => 0x8000000b

/-- Mirrors `Trap::is_interrupt` (`(*self as u32) >> 31 == 1`). -/
def Trap.is_interrupt (e : Trap) : Bool := e.toU32 >>> 31 == 1

/-- Mirrors `Trap::cause` (`(*self as u32) & !(1 << 31)`). -/
def Trap.cause (e : Trap) : Nat := e.toU32 &&& 0x7fffffff

/-- CSR state, mirroring `struct Csr` in `src/csr.rs`.  All registers are
`u32` except `menvcfg`, `mtimecmp`, `cycle`, `instret`, `time`, `stimecmp`,
which are `u64`. -/
structure Csr where
  mstatus : Nat := 0
  mscratch : Nat := 0
  mtvec : Nat := 0
  mie : Nat := 0
  mip : Nat := 0
  mepc : Nat := 0
  mtval : Nat := 0
  mcause : Nat := 0
  medeleg : Nat := 0
  mideleg : Nat := 0
  menvcfg : Nat := 0
  mcounteren : Nat := 0
  mcountinhibit : Nat := 0
  mtimecmp : Nat := 0
  cycle : Nat := 0
  instret : Nat := 0
  time : Nat := 0
  satp : Nat := 0
  scounteren : Nat := 0
  stvec : Nat := 0
  scause : Nat := 0
  stval : Nat := 0
  sepc : Nat := 0
  sscratch : Nat := 0
  stimecmp : Nat := 0
  suppress_minsret : Bool := false
deriving DecidableEq, Repr

/- mstatus bit layout constants from `src/csr.rs`. -/

def STATUS_SIE_POS : Nat := 1
def STATUS_MIE_POS : Nat := 3
def STATUS_SPIE_POS : Nat := 5
def STATUS_MPIE_POS : Nat := 7
def STATUS_SPP_POS : Nat := 8
def STATUS_MPP_POS : Nat := 11

def STATUS_SIE : Nat := 1 <<< STATUS_SIE_POS
def STATUS_MIE : Nat := 1 <<< STATUS_MIE_POS
def STATUS_SPIE : Nat := 1 <<< STATUS_SPIE_POS
def STATUS_MPIE : Nat := 1 <<< STATUS_MPIE_POS
def STATUS_SPP : Nat := 1 <<< STATUS_SPP_POS
def STATUS_MPP : Nat := 0x3 <<< STATUS_MPP_POS
def STATUS_MPRV : Nat := 1 <<< 17

def TVEC_MODE : Nat := 0x3

def IP_STIP : Nat := 0x20
def IP_MTIP : Nat := 0x80

/-- Mirrors `Csr::handle_mret` (`src/csr.rs` lines 761-775).  The Rust
function mutates `self.mstatus` and returns `Ok(mpp)`; here it returns the
updated CSR state together with the previous MPP field. -/
def Csr.handle_mret (c : Csr) : Csr × Nat :=
  let mpp := (c.mstatus &&& STATUS_MPP) >>> STATUS_MPP_POS
  let mpie := (c.mstatus &&& STATUS_MPIE) >>> STATUS_MPIE_POS
  let mstatus :=
    (c.mstatus &&& (U32MASK ^^^ (STATUS_MIE ||| STATUS_MPIE ||| STATUS_MPP)))
      ||| (mpie <<< STATUS_MIE_POS)
      ||| (1 <<< STATUS_MPIE_POS)
      ||| (Priv.User.toNat <<< STATUS_MPP_POS)
  let mstatus :=
    if mpp ≠ Priv.Machine.toNat then mstatus &&& (U32MASK ^^^ STATUS_MPRV)
    else mstatus
  ({ c with mstatus := mstatus }, mpp)

/-- Mirrors `Csr::handle_sret` (`src/csr.rs` lines 780-794). -/
def Csr.handle_sret (c : Csr) : Csr × Nat :=
  let spp := (c.mstatus &&& STATUS_SPP) >>> STATUS_SPP_POS
  let spie := (c.mstatus &&& STATUS_SPIE) >>> STATUS_SPIE_POS
  let mstatus :=
    (c.mstatus &&&
        (U32MASK ^^^ (STATUS_SIE ||| STATUS_SPIE ||| STATUS_SPP ||| STATUS_MPRV)))
      ||| (spie <<< STATUS_SIE_POS)
      ||| (1 <<< STATUS_SPIE_POS)
      ||| (Priv.User.toNat <<< STATUS_SPP_POS)
  let mstatus :=
    if spp ≠ Priv.Machine.toNat then mstatus &&& (U32MASK ^^^ STATUS_MPRV)
    else mstatus
  ({ c with mstatus := mstatus }, spp)

/-- Mirrors `Csr::set_mip_msip` (`src/csr.rs` lines 540-542). -/
def Csr.set_mip_msip (c : Csr) (msip : Nat) : Csr :=
  { c with mip := (c.mip &&& (U32MASK ^^^ 0x8)) ||| ((msip &&& 0x1) <<< 3) }

/-- Mirrors `Csr::set_mtimecmp` (`src/csr.rs` lines 555-565). -/
def Csr.set_mtimecmp (c : Csr) (v : Nat) : Csr :=
  let mtimecmp := (c.mtimecmp &&& (0xffffffff <<< 32)) ||| v
  if mtimecmp > c.time then
    { c with mip := c.mip &&& (U32MASK ^^^ IP_MTIP), mtimecmp := mtimecmp }
  else
    { c with mip := c.mip ||| IP_MTIP, mtimecmp := mtimecmp }

/-- Mirrors `Csr::set_mtimecmph` (`src/csr.rs` lines 568-578).  Note that
the `else` arm computes `self.mip & IP_MTIP` (bitwise AND), exactly as the
Rust source does. -/
def Csr.set_mtimecmph (c : Csr) (v : Nat) : Csr :=
  let mtimecmp := (c.mtimecmp &&& 0xffffffff) ||| (v <<< 32)
  if mtimecmp > c.time then
    { c with mip := c.mip &&& (U32MASK ^^^ IP_MTIP), mtimecmp := mtimecmp }
  else
    { c with mip := c.mip &&& IP_MTIP, mtimecmp := mtimecmp }

/-- Access types, mirroring `enum AccessType` in `src/lib.rs`
(`Read = 1 << 1`, `Write = 1 << 2`, `Fetch = 1 << 3`). -/
inductive AccessType where
  | Read
  | Write
  | Fetch
deriving DecidableEq, Repr

/-- Numeric value (`AccessType as u32`). -/
def AccessType.toU32 : AccessType → Nat
  | .Read => 2
  | .Write => 4
  | .Fetch => 8

/-- Mirrors `AccessType::is_read`. -/
def AccessType.is_read (a : AccessType) : Bool := a == .Read

/-- Mirrors `AccessType::is_write`. -/
def AccessType.is_write (a : AccessType) : Bool := a == .Write

/-- Mirrors `AccessType::into_trap` in `src/lib.rs`; the `Fetch` non-walk
arm is `todo!()` in the Rust code, modelled as `none`. -/
def AccessType.into_trap (a : AccessType) (is_walk : Bool) : Option Trap :=
  if is_walk then
    some (match a with
      | .Fetch => .InstructionPageFault
      | .Read => .LoadPageFault
      | .Write => .StoreOrAMOPageFault)
  else
    match a with
    | .Fetch => none
    | .Read => some .LoadAccessFault
    | .Write => some .StoreOrAMOAccessFault

/-- Mirrors `Clint::write_u32` (`src/bus/clint.rs` lines 26-50).  The
default arm returns `Err(ctx.make_trap())`, where `CpuContext::make_trap`
(`src/bus.rs`) is `access_type.into_trap(is_walk)`; since `into_trap` can
panic, the result is an `Option (Except Trap Csr)`. -/
def Clint.write_u32 (offset value : Nat) (csr : Csr) (access : AccessType)
    (is_walk : Bool) : Option (Except Trap Csr) :=
  if offset = 0 then
    some (.ok (csr.set_mip_msip (value &&& 0x1)))
  else if offset = 0x4000 then
    some (.ok (csr.set_mtimecmp value))
  else if offset = 0x4004 then
    some (.ok (csr.set_mtimecmph value))
  else
    match access.into_trap is_walk with
    | some t => some (.error t)
    | none => none

/-- Concrete CSR state for the claim C2 failing input: `time = 5`,
`mtimecmp = 0`, and `mip` holding only the SSIP bit. -/
def c2Csr : Csr := { mip := 0x2, time := 5 }

/-- Mirrors `Csr::handle_trap` (`src/csr.rs` lines 624-684).  Returns the
updated CSR state, the jump target, and the privilege the trap is taken at.
The Rust code adds `cause * 4` to the vector base with a plain `+`; the sum
stays in range for every representable cause, and the claims below do not
concern the jump target, so the addition is modelled on `Nat`. -/
def Csr.handle_trap (c : Csr) (from_prv : Priv) (e : Trap) (va xtval : Nat) :
    Csr × Nat × Priv :=
  let is_interrupt := e.is_interrupt
  let cause := e.cause
  if from_prv = Priv.Machine
      ∨ (is_interrupt = true ∧ (c.mideleg >>> cause) &&& 0x1 = 0)
      ∨ (is_interrupt = false ∧ (c.medeleg >>> cause) &&& 0x1 = 0) then
    let c := { c with mcause := e.toU32 }
    let c :=
      if e ≠ .EnvCallFromMachine ∧ e ≠ .EnvCallFromSupervisor ∧ e ≠ .EnvCallFromUser
      then { c with mtval := xtval }
      else c
    let mie := (c.mstatus &&& STATUS_MIE) >>> STATUS_MIE_POS
    let c := { c with mstatus :=
      (c.mstatus &&& (U32MASK ^^^ (STATUS_MPIE ||| STATUS_MIE ||| STATUS_MPP)))
        ||| (mie <<< STATUS_MPIE_POS)
        ||| (from_prv.toNat <<< STATUS_MPP_POS) }
    let c := { c with mepc := va &&& (U32MASK ^^^ 0x3) }
    if is_interrupt = true ∧ c.mtvec &&& TVEC_MODE ≠ 0 then
      (c, (c.mtvec &&& (U32MASK ^^^ TVEC_MODE)) + cause * 4, Priv.Machine)
    else
      (c, c.mtvec &&& (U32MASK ^^^ TVEC_MODE), Priv.Machine)
  else
    let c := { c with scause := e.toU32 }
    let c :=
      if e ≠ .EnvCallFromMachine ∧ e ≠ .EnvCallFromSupervisor ∧ e ≠ .EnvCallFromUser
      then { c with stval := xtval }
      else c
    let spp : Nat := if from_prv = Priv.User then 0 else 1
    let sie := (c.mstatus &&& STATUS_SIE) >>> STATUS_SIE_POS
    let c := { c with mstatus :=
      (c.mstatus &&& (U32MASK ^^^ (STATUS_SPIE ||| STATUS_SIE ||| STATUS_SPP)))
        ||| (sie <<< STATUS_SPIE_POS)
        ||| (0 <<< STATUS_SIE)
        ||| (spp <<< STATUS_SPP_POS) }
    let c := { c with sepc := va &&& (U32MASK ^^^ 0x3) }
    if is_interrupt = true ∧ c.stvec &&& TVEC_MODE ≠ 0 then
      (c, (c.stvec &&& (U32MASK ^^^ TVEC_MODE)) + cause * 4, Priv.Supervisor)
    else
      (c, c.stvec &&& (U32MASK ^^^ TVEC_MODE), Priv.Supervisor)

/- menvcfg constants from `src/csr.rs`. -/

def MENVCFGH_POS : Nat := 32
def MENVCFG_FIOM : Nat := 1
def MENVCFG_ADUE : Nat := 1 <<< 29

/-- Mirrors the `MENVCFG` arm of `Csr::write` (`src/csr.rs` line 310):
`self.menvcfg = (self.menvcfg & 0xffff0000) | (value & MENVCFG_FIOM) as u64`. -/
def Csr.write_menvcfg (c : Csr) (value : Nat) : Csr :=
  { c with menvcfg := (c.menvcfg &&& 0xffff0000) ||| (value &&& MENVCFG_FIOM) }

/-- Mirrors the `MENVCFGH` arm of `Csr::write` (`src/csr.rs` line 311):
`self.menvcfg = self.menvcfg | ((value & MENVCFG_ADUE) << 31) as u64`.
The shift `<< 31` happens in `u32` width, so the result is truncated to 32
bits before it is widened to `u64`. -/
def Csr.write_menvcfgh (c : Csr) (value : Nat) : Csr :=
  { c with menvcfg := c.menvcfg ||| (((value &&& MENVCFG_ADUE) <<< 31) % 2 ^ 32) }

/-- Mirrors the `MENVCFGH` arm of `Csr::read` (`src/csr.rs` line 218):
`(self.menvcfg >> MENVCFGH_POS) as u32`. -/
def Csr.read_menvcfgh (c : Csr) : Nat := (c.menvcfg >>> MENVCFGH_POS) % 2 ^ 32

/-- Decidable equality for `Except`, needed to evaluate concrete device
results by `decide`. -/
instance instDecEqExcept {e a : Type} [DecidableEq e] [DecidableEq a] :
    DecidableEq (Except e a)
  | .ok x, .ok y =>
    if h : x = y then .isTrue (h ▸ rfl)
    else .isFalse (fun hh => h (by cases hh; rfl))
  | .error x, .error y =>
    if h : x = y then .isTrue (h ▸ rfl)
    else .isFalse (fun hh => h (by cases hh; rfl))
  | .ok _, .error _ => .isFalse (fun hh => nomatch hh)
  | .error _, .ok _ => .isFalse (fun hh => nomatch hh)

/-- PLIC state, mirroring `struct Plic` in `src/bus/plic.rs`.  With
`PLIC_NUM = 32` the `pending` array and each per-context `enables` array
hold exactly one `u32` word, modelled as one `Nat` each; the two contexts
(`PLIC_CONTEXT_NUM = 2`) are modelled as separate fields.  IRQ numbers are
kept as raw `Nat`s: `IRQ::from` is the identity on the representable values
0, 1, 2, 10 and panics otherwise. -/
structure Plic where
  priories : List Nat := List.replicate 32 0
  pending : Nat := 0
  enables0 : Nat := 0
  enables1 : Nat := 0
  threasholds0 : Nat := 0
  threasholds1 : Nat := 0
  interrupting_irq : Option Nat := none
  interrupting_ctx : Option Nat := none
deriving DecidableEq, Repr

/-- The enable word of a context (`self.enables[ctx_idx][idx]` with
`idx = 0`). -/
def Plic.enableWord (p : Plic) (ctx_idx : Nat) : Nat :=
  if ctx_idx = 0 then p.enables0 else p.enables1

/-- The threshold of a context (`self.threasholds[ctx_idx]`). -/
def Plic.threashold (p : Plic) (ctx_idx : Nat) : Nat :=
  if ctx_idx = 0 then p.threasholds0 else p.threasholds1

/-- Mirrors `Plic::find_interrupt_active` (`src/bus/plic.rs` lines
166-197): a fold over `irq in 0..32` with an inner fold over the two
contexts, starting from `(max_priority, target_irq, target_ctx) =
(0, IRQ::None, 0)`.  The accumulator is overwritten whenever a pending,
enabled IRQ with priority above the context threshold is found; the Rust
code never compares `priority` with the recorded `max_priority`. -/
def Plic.find_interrupt_active (p : Plic) : Nat × Nat × Nat :=
  (List.range 32).foldl
    (fun acc irq =>
      if p.pending &&& (1 <<< (irq % 32)) = 0 then acc
      else
        let priority := p.priories.getD irq 0
        [0, 1].foldl
          (fun acc2 ctx_idx =>
            if p.enableWord ctx_idx &&& (1 <<< (irq % 32)) ≠ 0 then
              if priority > p.threashold ctx_idx then (priority, irq, ctx_idx)
              else acc2
            else acc2)
          acc)
    (0, 0, 0)

/-- Mirrors `Plic::unset_pending` (`src/bus/plic.rs` lines 155-161). -/
def Plic.unset_pending (p : Plic) (irq : Nat) : Plic :=
  { p with pending := p.pending &&& (U32MASK ^^^ (1 <<< (irq % 32))) }

/-- Mirrors `Plic::lower_interrupt` (`src/bus/plic.rs` lines 222-228); the
`unwrap` of `interrupting_irq` is modelled as `none` when absent. -/
def Plic.lower_interrupt (p : Plic) : Option (Plic × Nat) :=
  match p.interrupting_irq with
  | none => none
  | some irq => some (p.unset_pending irq, irq)

/-- Mirrors `Plic::raise_interrupt` (`src/bus/plic.rs` lines 200-219); a
context index other than 0 or 1 hits `unimplemented!`, modelled as `none`. -/
def Plic.raise_interrupt (p : Plic) : Option (Plic × Option Priv) :=
  let r := p.find_interrupt_active
  let irq := r.2.1
  let ctx := r.2.2
  if irq = 0 then some (p, none)
  else
    let p' := { p with interrupting_irq := some irq, interrupting_ctx := some ctx }
    if ctx = 0 then some (p', some .Machine)
    else if ctx = 1 then some (p', some .Supervisor)
    else none

/-- Mirrors `Plic::read` (`src/bus/plic.rs` lines 35-79).  `size != 4`,
offsets outside the enable and threshold/claim windows, an enable context
above 1, and an enable word index above 0 (the arrays have one word) all
panic in the Rust code, modelled as `none`.  Returns the updated PLIC and
the read value. -/
def Plic.read (p : Plic) (offset size : Nat) : Option (Plic × Nat) :=
  if size ≠ 4 then none
  else if 0x2000 ≤ offset ∧ offset < 0x2000 + 15872 * 0x80 then
    let o := offset - 0x2000
    let ctx_idx := o / 0x80
    let idx := (o % 0x80) / 4
    if ctx_idx > 1 then none
    else if idx ≠ 0 then none
    else some (p, p.enableWord ctx_idx)
  else if 0x200000 ≤ offset ∧ offset < 0x200000 + 15872 * 0x1000 + 4 then
    let idx := (offset - 0x200000) / 0x1000
    if idx > 1 then none
    else if offset &&& 0x4 = 4 then
      match p.interrupting_irq with
      | none => some (p, 0)
      | some _ =>
        match p.lower_interrupt with
        | none => none
        | some (p', irq) => some (p', irq)
    else some (p, p.threashold idx)
  else none

/-- Concrete PLIC state for the claim C1 failing input: IRQ 1 with priority
5 and IRQ 2 with priority 3, both pending and enabled for context 0, both
thresholds 0. -/
def c1Plic : Plic :=
  { priories := [0, 5, 3] ++ List.replicate 29 0
    pending := 0x6
    enables0 := 0x6 }

/-- Interpret a `Nat` holding a `u32` bit pattern as a Rust `i32` value. -/
def toI32 (n : Nat) : Int :=
  if n % 2 ^ 32 < 2 ^ 31 then (n % 2 ^ 32 : Int) else (n % 2 ^ 32 : Int) - 2 ^ 32

/-- The `u32` bit pattern of an `i32` value. -/
def ofI32 (i : Int) : Nat := (i % 2 ^ 32).toNat

/-- Rust native `i32` division (truncating toward zero).  `none` models the
two aborting cases: a zero divisor, and `i32::MIN / -1` overflow. -/
def rustDivI32 (a b : Nat) : Option Nat :=
  if toI32 b = 0 ∨ (toI32 a = -(2 ^ 31) ∧ toI32 b = -1) then none
  else some (ofI32 (Int.tdiv (toI32 a) (toI32 b)))

/-- Rust native `i32` remainder; `none` models the same aborting cases as
division. -/
def rustRemI32 (a b : Nat) : Option Nat :=
  if toI32 b = 0 ∨ (toI32 a = -(2 ^ 31) ∧ toI32 b = -1) then none
  else some (ofI32 (Int.tmod (toI32 a) (toI32 b)))

/-- Rust native `u32` division; `none` models the zero-divisor abort. -/
def rustDivU32 (a b : Nat) : Option Nat := if b = 0 then none else some (a / b)

/-- Rust native `u32` remainder; `none` models the zero-divisor abort. -/
def rustRemU32 (a b : Nat) : Option Nat := if b = 0 then none else some (a % b)

/-- Mirrors the DIV arm of `Cpu::step` (`src/cpu.rs` lines 622-636):
`rs1 == 1 << 31 && rs2 == !0` yields `rs1`, a zero divisor yields
`u32::MAX`, otherwise the native signed division is evaluated. -/
def execDIV (rs1_value rs2_value : Nat) : Option Nat :=
  if rs1_value = 1 <<< 31 ∧ rs2_value = U32MASK then some rs1_value
  else if rs2_value = 0 then some U32MASK
  else rustDivI32 rs1_value rs2_value

/-- Mirrors the DIVU arm of `Cpu::step` (`src/cpu.rs` lines 638-651). -/
def execDIVU (rs1_value rs2_value : Nat) : Option Nat :=
  if rs2_value = 0 then some U32MASK else rustDivU32 rs1_value rs2_value

/-- Mirrors the REM arm of `Cpu::step` (`src/cpu.rs` lines 656-670). -/
def execREM (rs1_value rs2_value : Nat) : Option Nat :=
  if rs1_value = 1 <<< 31 ∧ rs2_value = U32MASK then some 0
  else if rs2_value = 0 then some rs1_value
  else rustRemI32 rs1_value rs2_value

/-- Mirrors the REMU arm of `Cpu::step` (`src/cpu.rs` lines 672-685). -/
def execREMU (rs1_value rs2_value : Nat) : Option Nat :=
  if rs2_value = 0 then some rs1_value else rustRemU32 rs1_value rs2_value

def STATUS_SUM : Nat := 1 <<< 18
def SATP_PPN : Nat := 0x3fffff

/-- Mirrors `Csr::is_paging_enabled` (`self.satp >> 31 == 1`). -/
def Csr.is_paging_enabled (c : Csr) : Bool := c.satp >>> 31 == 1

/-- Mirrors `Csr::is_enabled_mstatus_mprv`. -/
def Csr.is_enabled_mstatus_mprv (c : Csr) : Bool := c.mstatus &&& STATUS_MPRV != 0

/-- Mirrors `Csr::is_enabled_mstatus_sum`. -/
def Csr.is_enabled_mstatus_sum (c : Csr) : Bool := c.mstatus &&& STATUS_SUM != 0

/-- Mirrors `Csr::get_mstatus_mpp`. -/
def Csr.get_mstatus_mpp (c : Csr) : Nat := (c.mstatus &&& STATUS_MPP) >>> STATUS_MPP_POS

/-- Mirrors `Csr::get_satp_ppn`. -/
def Csr.get_satp_ppn (c : Csr) : Nat := c.satp &&& SATP_PPN

/-- Mirrors `Csr::is_svadu_enabled`
(`(self.menvcfg >> MENVCFGH_POS) & MENVCFG_ADUE as u64 == 0`). -/
def Csr.is_svadu_enabled (c : Csr) : Bool :=
  (c.menvcfg >>> MENVCFGH_POS) &&& MENVCFG_ADUE == 0

/-- CPU state, mirroring `struct Cpu` (`src/cpu.rs`): privilege, register
file, pc, current instruction word, CSRs, the LR/SC reservation, the
latched fault address, and the bus's PLIC.  Guest memory is passed
separately as a word-addressed total function, and the host-channel handles
are outside the model; `taken_irq` stands for the `take_interrupt` mark
that `Bus::prepare_interrupt` places on the device whose IRQ is handled. -/
structure Cpu where
  prv : Priv := .Machine
  regs : List Nat := (List.replicate 32 0).set 11 0x80100000
  pc : Nat := 0
  inst : Nat := 0
  csr : Csr := {}
  reserved_addr : Option Nat := none
  fault_addr : Option Nat := none
  plic : Plic := {}
  taken_irq : Option Nat := none
deriving DecidableEq, Repr

/-- Mirrors `Registers::write` (`src/cpu.rs` lines 75-83): writes to x0 are
ignored. -/
def Cpu.write_reg (s : Cpu) (reg value : Nat) : Cpu :=
  if reg = 0 then s else { s with regs := s.regs.set reg value }

/-- Outcome of one iteration of the PTE-walk loop in `Cpu::translate_va`. -/
inductive WalkStep where
  | fault
  | found (i pte : Nat)
  | next (addr : Nat)
  | panic
deriving DecidableEq, Repr

/-- One iteration (level `i`, table base `addr`) of the walk loop in
`Cpu::translate_va` (`src/cpu.rs` lines 221-292).  `mem` is the
word-addressed physical memory; the PTE read through the bus is modelled as
total.  `.fault` is the `fault!` macro, `.found` the leaf acceptance
(`break`), `.next` the fall-through to the next level, and `.panic` the
`todo!()` on the software A/D-update path. -/
def walk_level (c : Csr) (local_prv : Priv) (mem : Nat → Nat) (va : Nat)
    (access_type : AccessType) (i addr : Nat) : WalkStep :=
  let vpns := va >>> 12
  let vpn := (vpns >>> (10 * i)) &&& 0x3ff
  let pte_addr := addr + vpn * 4
  let pte := mem pte_addr % 2 ^ 32
  let v := pte &&& 1
  let r := pte &&& 2
  let w := pte &&& 4
  let x := pte &&& 8
  if v = 0 ∨ (r = 0 ∧ w ≠ 0) then .fault
  else if r ≠ 0 ∨ x ≠ 0 then
    if r = access_type.toU32 ∨ w = access_type.toU32 ∨ x = access_type.toU32 then
      if i > 0 ∧ pte &&& (0x3ff <<< 10) ≠ 0 then .fault
      else
        let u := pte &&& 0x10
        if (u = 0 ∧ local_prv = .User)
            ∨ (u ≠ 0 ∧ local_prv = .Supervisor ∧ (r ≠ 0 ∨ w ≠ 0)
                ∧ ¬ c.is_enabled_mstatus_sum = true) then .fault
        else
          let a := pte &&& 0x40
          let d := pte &&& 0x80
          if a = 0 ∨ (access_type.is_write = true ∧ d = 0) then
            if c.is_svadu_enabled = true then .fault else .panic
          else .found i pte
    else .next ((pte >>> 10) * 4096)
  else .next ((pte >>> 10) * 4096)

/-- The physical address assembled from an accepted leaf PTE
(`src/cpu.rs` lines 294-305). -/
def leaf_pa (i pte va : Nat) : Nat :=
  if i = 1 then ((pte <<< 2) &&& 0xffc00000) ||| (va &&& 0x3fffff)
  else ((pte <<< 2) &&& 0xfffff000) ||| (va &&& 0xfff)

/-- Mirrors `Cpu::translate_va` (`src/cpu.rs` lines 186-306).  The `fault!`
macro also latches `fault_addr := Some(va)`; callers of this function apply
that update when the result is `.error` (the macro fires exactly on the
error paths).  The outer `none` models the panics: an MPP value of 2 in
`Priv::from` and the `todo!()` A/D path. -/
def translate_va (c : Csr) (prv : Priv) (mem : Nat → Nat) (va : Nat)
    (access_type : AccessType) : Option (Except Trap Nat) :=
  if c.is_paging_enabled = false then some (.ok va)
  else
    let local_prv? :=
      if c.is_enabled_mstatus_mprv = true
          ∧ (access_type.is_read = true ∨ access_type.is_write = true) then
        Priv.fromU32 c.get_mstatus_mpp
      else some prv
    match local_prv? with
    | none => none
    | some local_prv =>
      if local_prv = .Machine then some (.ok va)
      else
        let fault : Option (Except Trap Nat) :=
          match access_type.into_trap true with
          | some t => some (.error t)
          | none => none
        let addr0 := c.get_satp_ppn * 4096
        match walk_level c local_prv mem va access_type 1 addr0 with
        | .fault => fault
        | .panic => none
        | .found i pte => some (.ok (leaf_pa i pte va))
        | .next addr1 =>
          match walk_level c local_prv mem va access_type 0 addr1 with
          | .fault => fault
          | .panic => none
          | .found i pte => some (.ok (leaf_pa i pte va))
          | .next _ => fault

/-- Mirrors `Cpu::read_memory_u32` (`src/cpu.rs` lines 309-334): translate,
then read through the bus (modelled as the total word function; device read
side effects are outside this model).  A translation fault latches
`fault_addr`. -/
def Cpu.read_memory_u32 (s : Cpu) (mem : Nat → Nat) (addr : Nat) :
    Option (Cpu × Except Trap Nat) :=
  match translate_va s.csr s.prv mem addr .Read with
  | none => none
  | some (.error t) => some ({ s with fault_addr := some addr }, .error t)
  | some (.ok pa) => some (s, .ok (mem pa % 2 ^ 32))

/-- Mirrors `Cpu::write_memory_u32` (`src/cpu.rs` lines 337-363): translate,
then write through the bus (modelled as a pointwise memory update). -/
def Cpu.write_memory_u32 (s : Cpu) (mem : Nat → Nat) (addr value : Nat) :
    Option (Cpu × (Nat → Nat) × Except Trap Unit) :=
  match translate_va s.csr s.prv mem addr .Write with
  | none => none
  | some (.error t) => some ({ s with fault_addr := some addr }, mem, .error t)
  | some (.ok pa) =>
    some (s, (fun a => if a = pa then value % 2 ^ 32 else mem a), .ok ())

/-- Mirrors `Cpu::fetch` (`src/cpu.rs` lines 957-975): translate the pc; if
the resulting physical address is 4-aligned, read the instruction word,
otherwise return `Err(Trap::InstructionAddressMisaligned)`.  Note that the
misaligned branch does not touch `fault_addr`, exactly as the Rust code. -/
def Cpu.fetch (s : Cpu) (mem : Nat → Nat) : Option (Cpu × Except Trap Nat) :=
  match translate_va s.csr s.prv mem s.pc .Fetch with
  | none => none
  | some (.error t) => some ({ s with fault_addr := some s.pc }, .error t)
  | some (.ok next_pc) =>
    if next_pc % 4 = 0 then some (s, .ok (mem next_pc % 2 ^ 32))
    else some (s, .error .InstructionAddressMisaligned)

/-- Mirrors the LR.W / SC.W arms of the AMO opcode in `Cpu::step`
(`src/cpu.rs` lines 689-720): `is_sc = false` is LR.W (`upper_funct7 =
0b00010`), `is_sc = true` is SC.W (`0b00011`); `rs1_value`, `rs2_value` are
the operand register values and `rd` the destination index.  Returns the
post state, the memory, and the instruction outcome; a `?`-propagated trap
returns before any later state update, exactly as in the Rust code. -/
def execLrScW (s : Cpu) (mem : Nat → Nat) (is_sc : Bool)
    (rd rs1_value rs2_value : Nat) :
    Option (Cpu × (Nat → Nat) × Except Trap Unit) :=
  let addr := rs1_value
  if addr % 4 ≠ 0 then some (s, mem, .error .StoreOrAMOAddressMisaligned)
  else if is_sc = false then
    match s.read_memory_u32 mem addr with
    | none => none
    | some (s1, .error t) => some (s1, mem, .error t)
    | some (s1, .ok value) =>
      let s2 := s1.write_reg rd value
      some ({ s2 with reserved_addr := some addr }, mem, .ok ())
  else
    if s.reserved_addr = some addr then
      match s.write_memory_u32 mem addr rs2_value with
      | none => none
      | some (s1, mem1, .error t) => some (s1, mem1, .error t)
      | some (s1, mem1, .ok _) =>
        let s2 := s1.write_reg rd 0
        some ({ s2 with reserved_addr := none }, mem1, .ok ())
    else
      let s2 := s.write_reg rd 1
      some ({ s2 with reserved_addr := none }, mem, .ok ())

/-- Mirrors `Cpu::handle_trap` (`src/cpu.rs` lines 980-1009).  The
`Unimplemented*` arms panic; the fault-address arms `unwrap` the latched
`fault_addr` (panicking when it is `None`); the external-interrupt arm
first runs `prepare_external_interrupt`, i.e. `Bus::prepare_interrupt`,
which `unwrap`s the PLIC's `interrupting_irq` and marks the device with the
matching IRQ (1 = net, 2 = gpu, 10 = uart; any other IRQ is
`unreachable!`). -/
def Cpu.handle_trap (s : Cpu) (e : Trap) : Option Cpu :=
  match e with
  | .UnimplementedCSR | .UnimplementedInstruction => none
  | .InstructionAddressMisaligned | .LoadPageFault | .StoreOrAMOPageFault
  | .InstructionPageFault =>
    match s.fault_addr with
    | none => none
    | some fault_addr =>
      let r := s.csr.handle_trap s.prv e s.pc fault_addr
      some { s with fault_addr := none, csr := r.1, pc := r.2.1, prv := r.2.2 }
  | .IlligalInstruction =>
    let r := s.csr.handle_trap s.prv e s.pc s.inst
    some { s with csr := r.1, pc := r.2.1, prv := r.2.2 }
  | .SupervisorExternalInterrupt =>
    match s.plic.interrupting_irq with
    | none => none
    | some irq =>
      if irq = 1 ∨ irq = 2 ∨ irq = 10 then
        let r := s.csr.handle_trap s.prv e s.pc 0
        some { s with taken_irq := some irq, csr := r.1, pc := r.2.1, prv := r.2.2 }
      else none
  | _ =>
    let r := s.csr.handle_trap s.prv e s.pc 0
    some { s with csr := r.1, pc := r.2.1, prv := r.2.2 }

/-- Concrete CPU state for the claim C5 counterexample: a live reservation
at address 8. -/
def c5TrapState : Cpu := { reserved_addr := some 8 }

/-- Concrete CPU state and memory for the claim C5 and C7 witnesses:
reset-state CPU (paging disabled, Machine mode). -/
def c5Cpu : Cpu := {}

def c5Mem : Nat → Nat := fun _ => 0x12345678

/-- The state after executing LR.W with `rd = 1`, address 8 on `c5Cpu`. -/
def c5LrResult : Cpu :=
  { regs := ((List.replicate 32 0).set 11 0x80100000).set 1 (0x12345678 % 2 ^ 32)
    reserved_addr := some 8 }

/-- The state after executing SC.W with `rd = 2`, address 8 on
`c5LrResult`. -/
def c5ScResult : Cpu :=
  { regs := (((List.replicate 32 0).set 11 0x80100000).set 1
      (0x12345678 % 2 ^ 32)).set 2 0
    reserved_addr := none }

/-- The memory after that SC.W stored 7 at address 8. -/
def c5MemAfter : Nat → Nat := fun a => if a = 8 then 7 % 2 ^ 32 else c5Mem a

/-- Concrete CPU state for the claim C7 failing input: paging disabled,
`pc = 2`, no latched fault address. -/
def c7Cpu : Cpu := { pc := 2 }

/-- UART state, mirroring `struct Uart` in `src/bus/uart.rs`.  Characters
are modelled by their code points; the host input channel (`input_rx`) is
the list of characters waiting in the mpsc channel, oldest first.  The
defaults mirror `Uart::new` (`lsr = LSR_TEMT | LSR_THRE`, `iir = IIR_NIP`). -/
structure Uart where
  lcr : Nat := 0
  dlm : Nat := 0
  dll : Nat := 0
  lsr : Nat := 0x60
  ier : Nat := 0
  rbr : Nat := 0
  iir : Nat := 1
  is_interrupting : Bool := false
  is_taken_interrupt : Bool := false
  input_buf : List Nat := []
  input_rx : List Nat := []
deriving DecidableEq, Repr

/-- Mirrors `Uart::raise_interrupt` (`src/bus/uart.rs` lines 280-284). -/
def Uart.raise_interrupt (u : Uart) (iir : Nat) : Uart :=
  { u with is_interrupting := true, is_taken_interrupt := false, iir := iir }

/-- Mirrors `Uart::push_char` (`src/bus/uart.rs` lines 273-277):
`rbr = c as u8`, set `LSR_DR`, raise `IIR_RDA` (4). -/
def Uart.push_char (u : Uart) (c : Nat) : Uart :=
  ({ u with rbr := c % 256, lsr := u.lsr ||| 1 }).raise_interrupt 4

/-- Mirrors `Uart::is_ready_for_recieving` (`src/bus/uart.rs` lines
294-296): `self.iir == 1 && self.ier & 0x4 != 0`. -/
def Uart.is_ready_for_recieving (u : Uart) : Bool :=
  u.iir == 1 && u.ier &&& 0x4 != 0

/-- Mirrors `Uart::tick` (`src/bus/uart.rs` lines 191-208): drain at most
one character from the host channel into `input_buf` (`Vec::push` appends
at the end), then, if the buffer is nonempty and `is_ready_for_recieving`,
pop one character (`Vec::pop` removes the LAST element) into RBR and report
an interrupt. -/
def Uart.tick (u : Uart) : Uart × Bool :=
  let u :=
    match u.input_rx with
    | [] => u
    | c :: rest => { u with input_rx := rest, input_buf := u.input_buf ++ [c] }
  if u.input_buf ≠ [] ∧ u.is_ready_for_recieving = true then
    match u.input_buf.reverse with
    | [] => (u, false)
    | c :: rest => (({ u with input_buf := rest.reverse }).push_char c, true)
  else (u, false)

/-- Concrete UART state for the claim C8 failing input: idle (`iir = 1`,
not interrupting), ERBFI (IER bit 0) set, one byte buffered. -/
def c8Uart : Uart := { ier := 1, input_buf := [65] }

/-- Shared virtio-MMIO transport state, mirroring `struct VirtioMmio` in
`src/bus/virtio_mmio.rs`; `device_type` is the numeric `VirtioType`
discriminant. -/
structure VirtioMmio where
  device_type : Nat
  status : Nat
  features_sel : Nat
  features_supported : List Nat
  driver_features_sel : Nat
  driver_features : List Nat
  queue_sel : Nat
  queue_size_max : Nat
  queue_sizes : List Nat
  readies : List Bool
  desc_addrs : List Nat
  driver_addrs : List Nat
  device_addrs : List Nat
  shm_sel : Nat
deriving DecidableEq, Repr

/-- Mirrors `VirtioMmio::new` (`src/bus/virtio_mmio.rs` lines 79-108). -/
def VirtioMmio.new (device_type : Nat) (features_supported : List Nat)
    (queue_num queue_size_max : Nat) : VirtioMmio :=
  { device_type := device_type
    status := 0
    features_sel := 0
    features_supported := features_supported
    driver_features_sel := 0
    driver_features := [0, 0, 0, 0]
    queue_sel := 0
    queue_size_max := queue_size_max
    queue_sizes := List.replicate queue_num 0
    readies := List.replicate queue_num false
    desc_addrs := List.replicate queue_num 0
    driver_addrs := List.replicate queue_num 0
    device_addrs := List.replicate queue_num 0
    shm_sel := 0 }

/-- Mirrors `VirtioMmio::set_failed`. -/
def VirtioMmio.set_failed (m : VirtioMmio) : VirtioMmio :=
  { m with status := m.status ||| (1 <<< 7) }

/-- Mirrors `VirtioMmio::write` (`src/bus/virtio_mmio.rs` lines 143-214).
`size != 4`, `write_panic`, the `unimplemented!` arms and out-of-bounds
vector indexing are modelled as `none`. -/
def VirtioMmio.write (m : VirtioMmio) (offset size value : Nat) :
    Option VirtioMmio :=
  if size ≠ 4 then none
  else if offset = 0x14 then some { m with features_sel := value }
  else if offset = 0x20 then
    match m.features_supported.get? m.driver_features_sel with
    | none => none
    | some f =>
      if value ≠ f then some m.set_failed
      else if m.driver_features_sel < m.driver_features.length then
        some { m with
          driver_features := m.driver_features.set m.driver_features_sel value }
      else none
  else if offset = 0x24 then some { m with driver_features_sel := value }
  else if offset = 0x30 then some { m with queue_sel := value }
  else if offset = 0x38 then
    if m.queue_sel < m.queue_sizes.length then
      some { m with queue_sizes := m.queue_sizes.set m.queue_sel value }
    else none
  else if offset = 0x44 then
    if value = 0 ∨ value = 1 then
      if m.queue_sel < m.readies.length then
        some { m with readies := m.readies.set m.queue_sel (value = 1) }
      else none
    else none
  else if offset = 0x64 then
    if value ≠ 1 then none else some m
  else if offset = 0x70 then
    if value = 1 ∨ value = 3 ∨ value = 0xb ∨ value = 0xf then
      some { m with status := value }
    else none
  else if offset = 0x80 then
    if m.queue_sel < m.desc_addrs.length then
      some { m with desc_addrs := m.desc_addrs.set m.queue_sel value }
    else none
  else if offset = 0x84 then
    if value ≠ 0 then none else some m
  else if offset = 0x90 then
    if m.queue_sel < m.driver_addrs.length then
      some { m with driver_addrs := m.driver_addrs.set m.queue_sel value }
    else none
  else if offset = 0x94 then
    if value ≠ 0 then none else some m
  else if offset = 0xa0 then
    if m.queue_sel < m.device_addrs.length then
      some { m with device_addrs := m.device_addrs.set m.queue_sel value }
    else none
  else if offset = 0xa4 then
    if value ≠ 0 then none else some m
  else if offset = 0xac then some { m with shm_sel := value }
  else none

/-- virtio-net device state, mirroring `struct VirtioNet`
(`src/bus/virtio_net.rs`); the mpsc channel endpoints are modelled as
opaque handles. -/
structure VirtioNet where
  virtio : VirtioMmio
  last_idxes : List Nat
  input_rx : Nat
  output_tx : Nat
deriving DecidableEq, Repr

/-- Mirrors `VirtioNet::new` (`src/bus/virtio_net.rs` lines 170-181): type
Network (1), features `[1 << 5, 1, 0, 0]`, two queues of max size 256. -/
def VirtioNet.new (input_rx output_tx : Nat) : VirtioNet :=
  { virtio := VirtioMmio.new 1 [32, 1, 0, 0] 2 256
    last_idxes := [0, 0]
    input_rx := input_rx
    output_tx := output_tx }

/-- Mirrors `VirtioNet::reset` (`src/bus/virtio_net.rs` lines 183-188):
`*self = Self::new(input_rx, output_tx)` with the channels taken from the
old state. -/
def VirtioNet.reset (d : VirtioNet) : VirtioNet :=
  VirtioNet.new d.input_rx d.output_tx

/-- Mirrors `VirtioNet::write` (`src/bus/virtio_net.rs` lines 71-103) for
every offset except the notify register 0x50, whose `handle_notify` reads
guest memory and is outside this model: a status write of 0 resets the
device, everything else is delegated to the shared transport. -/
def VirtioNet.write (d : VirtioNet) (offset size value : Nat) :
    Option VirtioNet :=
  if offset = 0x50 then none
  else if offset = 0x70 ∧ value = 0 then some d.reset
  else (d.virtio.write offset size value).map fun m => { d with virtio := m }

/-- A GPU resource, mirroring `struct GpuResouce` (`src/bus/virtio_gpu.rs`);
backing-store entries are (addr, length) pairs. -/
structure GpuResouce where
  format : Nat
  width : Nat
  height : Nat
  entries : List (Nat × Nat)
deriving DecidableEq, Repr

/-- A scanout, mirroring `struct GpuScanout` (rect plus resource id). -/
structure GpuScanout where
  x : Nat := 0
  y : Nat := 0
  width : Nat := 0
  height : Nat := 0
  resource_id : Nat := 0
deriving DecidableEq, Repr

/-- virtio-gpu device state, mirroring `struct VirtioGpu`
(`src/bus/virtio_gpu.rs`); the resource map is an association list and the
output channel an opaque handle. -/
structure VirtioGpu where
  virtio : VirtioMmio
  last_idxes : List Nat
  resources : List (Nat × GpuResouce)
  scanouts : List GpuScanout
  output_tx : Nat
deriving DecidableEq, Repr

/-- Mirrors `VirtioGpu::new` (`src/bus/virtio_gpu.rs` lines 281-291): type
Gpu (16), features `[0, 1, 0, 0]`, two queues of max size 256, one default
scanout. -/
def VirtioGpu.new (output_tx : Nat) : VirtioGpu :=
  { virtio := VirtioMmio.new 16 [0, 1, 0, 0] 2 256
    last_idxes := [0, 0]
    resources := []
    scanouts := [{}]
    output_tx := output_tx }

/-- Mirrors `VirtioGpu::reset` (`src/bus/virtio_gpu.rs` lines 293-297). -/
def VirtioGpu.reset (d : VirtioGpu) : VirtioGpu := VirtioGpu.new d.output_tx

/-- Mirrors `VirtioGpu::write` (`src/bus/virtio_gpu.rs` lines 202-238) for
every offset except the notify register 0x50 (see `VirtioNet.write`). -/
def VirtioGpu.write (d : VirtioGpu) (offset size value : Nat) :
    Option VirtioGpu :=
  if offset = 0x50 then none
  else if offset = 0x70 ∧ value = 0 then some d.reset
  else (d.virtio.write offset size value).map fun m => { d with virtio := m }

/-- Claim C4: after `mret`, `mstatus.MIE` equals the previous MPIE, MPIE is
set, MPP is User, MPRV is cleared when the previous MPP was not Machine, and
the previous MPP is returned; symmetrically for `sret` with SIE/SPIE/SPP,
with MPRV cleared when the restored privilege is not Machine. -/
theorem mret_sret_restore_correct (c : Csr) :
    ((c.handle_mret.2 = (c.mstatus &&& STATUS_MPP) >>> STATUS_MPP_POS)
      ∧ c.handle_mret.1.mstatus.testBit 3 = c.mstatus.testBit 7
      ∧ c.handle_mret.1.mstatus.testBit 7 = true
      ∧ c.handle_mret.1.mstatus.testBit 11 = false
      ∧ c.handle_mret.1.mstatus.testBit 12 = false
      ∧ (c.handle_mret.2 ≠ 3 → c.handle_mret.1.mstatus.testBit 17 = false))
    ∧ ((c.handle_sret.2 = (c.mstatus &&& STATUS_SPP) >>> STATUS_SPP_POS)
      ∧ c.handle_sret.1.mstatus.testBit 1 = c.mstatus.testBit 5
      ∧ c.handle_sret.1.mstatus.testBit 5 = true
      ∧ c.handle_sret.1.mstatus.testBit 8 = false
      ∧ (c.handle_sret.2 ≠ 3 → c.handle_sret.1.mstatus.testBit 17 = false)) := by
  refine ⟨⟨rfl, ?_, ?_, ?_, ?_, ?_⟩, ⟨rfl, ?_, ?_, ?_, ?_⟩⟩ <;>
    (try intro h) <;>
    simp only [Csr.handle_mret, Csr.handle_sret, U32MASK, STATUS_MIE, STATUS_MPIE,
      STATUS_MPP, STATUS_SIE, STATUS_SPIE, STATUS_SPP, STATUS_MPRV, STATUS_MIE_POS,
      STATUS_MPIE_POS, STATUS_MPP_POS, STATUS_SIE_POS, STATUS_SPIE_POS, STATUS_SPP_POS,
      Priv.toNat] at * <;>
    split <;>
    simp only [Nat.testBit_lor, Nat.testBit_land, Nat.testBit_shiftLeft,
      Nat.testBit_shiftRight] <;>
    simp [Nat.testBit_to_div_mod]

/-- Helper: the Rust idiom `va & !0x3` on a `u32` produces a value divisible
by 4. -/
theorem land_not3_mod4 (va : Nat) : (va &&& (U32MASK ^^^ 0x3)) % 4 = 0 := by
  have hc : (U32MASK ^^^ 0x3 : Nat) = 4294967292 := by decide
  have h := Nat.and_pow_two_sub_one_eq_mod (va &&& 4294967292) 2
  norm_num at h
  rw [hc, ← h, Nat.and_assoc, show (4294967292 &&& 3 : Nat) = 0 from by decide,
    Nat.and_zero]

/-- Claim C3: a trap is handled at Machine iff `from_prv` is Machine or the
trap's delegation bit is clear, and at Supervisor otherwise; the resulting
privilege never decreases; the written `mepc` (resp. `sepc`) is 0 mod 4; on
the Machine path MIE is latched into MPIE and cleared, on the Supervisor
path SIE is latched into SPIE and cleared. -/
theorem handle_trap_entry_correct (c : Csr) (p : Priv) (e : Trap) (va xtval : Nat) :
    ((c.handle_trap p e va xtval).2.2 = Priv.Machine ↔
      (p = Priv.Machine
        ∨ (e.is_interrupt = true ∧ (c.mideleg >>> e.cause) &&& 0x1 = 0)
        ∨ (e.is_interrupt = false ∧ (c.medeleg >>> e.cause) &&& 0x1 = 0)))
    ∧ p.toNat ≤ (c.handle_trap p e va xtval).2.2.toNat
    ∧ ((c.handle_trap p e va xtval).2.2 = Priv.Machine →
        (c.handle_trap p e va xtval).1.mepc % 4 = 0
        ∧ (c.handle_trap p e va xtval).1.mstatus.testBit 7 = c.mstatus.testBit 3
        ∧ (c.handle_trap p e va xtval).1.mstatus.testBit 3 = false)
    ∧ ((c.handle_trap p e va xtval).2.2 = Priv.Supervisor →
        (c.handle_trap p e va xtval).1.sepc % 4 = 0
        ∧ (c.handle_trap p e va xtval).1.mstatus.testBit 5 = c.mstatus.testBit 1
        ∧ (c.handle_trap p e va xtval).1.mstatus.testBit 1 = false) := by
  by_cases hd : p = Priv.Machine
      ∨ (e.is_interrupt = true ∧ (c.mideleg >>> e.cause) &&& 0x1 = 0)
      ∨ (e.is_interrupt = false ∧ (c.medeleg >>> e.cause) &&& 0x1 = 0)
  · refine ⟨?_, ?_, ?_, ?_⟩
    · simp only [Csr.handle_trap]
      rw [if_pos hd]
      (repeat' split) <;> simp_all
    · simp only [Csr.handle_trap]
      rw [if_pos hd]
      (repeat' split) <;> cases p <;> simp [Priv.toNat]
    · intro hM
      refine ⟨?_, ?_, ?_⟩ <;>
        simp only [Csr.handle_trap] <;>
        rw [if_pos hd] <;>
        (repeat' split) <;>
        first
          | exact land_not3_mod4 va
          | (simp only [U32MASK, STATUS_MIE, STATUS_MPIE, STATUS_MPP, STATUS_MIE_POS,
               STATUS_MPIE_POS, STATUS_MPP_POS, Nat.testBit_lor, Nat.testBit_land,
               Nat.testBit_shiftLeft, Nat.testBit_shiftRight] <;>
             simp [Nat.testBit_to_div_mod, Priv.toNat])
    · intro hS
      exfalso
      revert hS
      simp only [Csr.handle_trap]
      rw [if_pos hd]
      (repeat' split) <;> simp
  · have hp : p ≠ Priv.Machine := fun h => hd (Or.inl h)
    refine ⟨?_, ?_, ?_, ?_⟩
    · simp only [Csr.handle_trap]
      rw [if_neg hd]
      (repeat' split) <;> simp_all
    · simp only [Csr.handle_trap]
      rw [if_neg hd]
      (repeat' split) <;> cases p <;> simp_all [Priv.toNat]
    · intro hM
      exfalso
      revert hM
      simp only [Csr.handle_trap]
      rw [if_neg hd]
      (repeat' split) <;> simp
    · intro hS
      refine ⟨?_, ?_, ?_⟩ <;>
        simp only [Csr.handle_trap] <;>
        rw [if_neg hd] <;>
        (repeat' split) <;>
        first
          | exact land_not3_mod4 va
          | (simp only [U32MASK, STATUS_SIE, STATUS_SPIE, STATUS_SPP, STATUS_SIE_POS,
               STATUS_SPIE_POS, STATUS_SPP_POS, Nat.testBit_lor, Nat.testBit_land,
               Nat.testBit_shiftLeft, Nat.testBit_shiftRight] <;>
             simp [Nat.testBit_to_div_mod])

/-- Claim C2 (failing input): with `time = 5`, `mtimecmp = 0` and `mip`
holding only SSIP, a CLINT write of 0 to offset 0x4004 (mtimecmph) yields
`mip = 0`: MTIP is left clear although `time >= mtimecmp`, and the
unrelated SSIP bit is wiped, because the arm of `set_mtimecmph` that should
set MTIP computes `mip & IP_MTIP` instead of `mip | IP_MTIP`. -/
theorem clint_mtimecmph_write_clobbers_mip :
    Clint.write_u32 0x4004 0 c2Csr .Write false
        = some (.ok { c2Csr with mip := 0, mtimecmp := 0 })
      ∧ c2Csr.mtimecmp ≤ c2Csr.time
      ∧ (c2Csr.set_mtimecmph 0).mip.testBit 7 = false
      ∧ (c2Csr.set_mtimecmph 0).mip.testBit 1 = false
      ∧ c2Csr.mip.testBit 1 = true := by
  decide

/-- Claim C6 (failing input): writing `0x20000000` (the ADUE bit) to
menvcfgh leaves `menvcfg` unchanged, because `(value & MENVCFG_ADUE) << 31`
is evaluated in 32-bit width and the bit is shifted out; a subsequent
menvcfgh read returns 0 rather than `0x20000000`.  Writing menvcfg when the
64-bit `menvcfg` has its ADUE (bit 61) set zeroes the whole high word,
because the preserved mask `0xffff0000` covers only low-word bits. -/
theorem menvcfg_write_drops_adue :
    (({} : Csr).write_menvcfgh 0x20000000).menvcfg = 0
      ∧ (({} : Csr).write_menvcfgh 0x20000000).read_menvcfgh = 0
      ∧ (({ menvcfg := 0x2000000000000001 } : Csr).write_menvcfg 1).menvcfg = 1 := by
  decide

/-- Claim C1 (failing input): with IRQ 1 at priority 5 and IRQ 2 at
priority 3 both pending and enabled for context 0 (thresholds 0), the
selection returns IRQ 2 with priority 3 — the last qualifying IRQ in scan
order — even though IRQ 1 qualifies with the strictly higher priority 5;
after `raise_interrupt`, a claim-register read for context 0 returns 2. -/
theorem plic_selects_last_qualifying_irq :
    c1Plic.find_interrupt_active = (3, 2, 0)
      ∧ (c1Plic.priories.getD 1 0 = 5 ∧ c1Plic.pending.testBit 1 = true
          ∧ c1Plic.enables0.testBit 1 = true ∧ c1Plic.threasholds0 = 0)
      ∧ (c1Plic.raise_interrupt.map
          (fun r => (r.1.read 0x200004 4).map (fun q => q.2))
          = some (some 2)) := by
  decide

/-- Helper for claim C10: the native `i32` division is defined whenever the
guards of the DIV arm have excluded the zero divisor and the
`i32::MIN / -1` overflow. -/
theorem rustDivI32_isSome {a b : Nat} (ha : a < 2 ^ 32) (hb : b < 2 ^ 32)
    (h0 : b ≠ 0) (hov : ¬(a = 1 <<< 31 ∧ b = U32MASK)) :
    (rustDivI32 a b).isSome = true := by
  unfold rustDivI32 toI32
  rw [Nat.mod_eq_of_lt ha, Nat.mod_eq_of_lt hb, if_neg]
  · rfl
  · simp only [U32MASK, Nat.shiftLeft_eq] at hov
    norm_num at hov
    split_ifs <;> omega

/-- Helper for claim C10: the native `i32` remainder is defined under the
same conditions. -/
theorem rustRemI32_isSome {a b : Nat} (ha : a < 2 ^ 32) (hb : b < 2 ^ 32)
    (h0 : b ≠ 0) (hov : ¬(a = 1 <<< 31 ∧ b = U32MASK)) :
    (rustRemI32 a b).isSome = true := by
  unfold rustRemI32 toI32
  rw [Nat.mod_eq_of_lt ha, Nat.mod_eq_of_lt hb, if_neg]
  · rfl
  · simp only [U32MASK, Nat.shiftLeft_eq] at hov
    norm_num at hov
    split_ifs <;> omega

/-- Claim C10: for every pair of 32-bit operand values, DIV, DIVU, REM and
REMU produce a result and never abort: the guard branches divert the zero
divisor and the signed-overflow pair before the native operations run. -/
theorem div_rem_never_abort (a b : Nat) (ha : a < 2 ^ 32) (hb : b < 2 ^ 32) :
    (execDIV a b).isSome = true ∧ (execDIVU a b).isSome = true
      ∧ (execREM a b).isSome = true ∧ (execREMU a b).isSome = true := by
  refine ⟨?_, ?_, ?_, ?_⟩
  · unfold execDIV
    split_ifs with h1 h2
    · rfl
    · rfl
    · exact rustDivI32_isSome ha hb h2 h1
  · unfold execDIVU rustDivU32
    split_ifs <;> rfl
  · unfold execREM
    split_ifs with h1 h2
    · rfl
    · rfl
    · exact rustRemI32_isSome ha hb h2 h1
  · unfold execREMU rustRemU32
    split_ifs <;> rfl

/-- Witness for claim C10 at the signed-overflow operands. -/
theorem div_rem_never_abort_witness :
    (execDIV 0x80000000 0xffffffff).isSome = true
      ∧ (execDIVU 0x80000000 0xffffffff).isSome = true
      ∧ (execREM 0x80000000 0xffffffff).isSome = true
      ∧ (execREMU 0x80000000 0xffffffff).isSome = true :=
  div_rem_never_abort 0x80000000 0xffffffff (by decide) (by decide)

/-- Claim C5 counterexample: handling a trap does not clear the
reservation.  With a live reservation at address 8, `Cpu::handle_trap` on a
breakpoint trap completes and leaves `reserved_addr = Some(8)`. -/
theorem trap_keeps_reservation_cex :
    (c5TrapState.handle_trap Trap.BreakPoint).map (fun t => t.reserved_addr)
        = some (some 8)
      ∧ (some 8 : Option Nat) ≠ none := by
  decide

/-- Claim C5 (amended): every LR.W that completes without a trap sets the
reservation to its operand address; every SC.W that completes without a
trap clears it, whether the conditional store succeeded or failed; and trap
handling leaves the reservation unchanged. -/
theorem lr_sc_reservation_amended (s : Cpu) (mem : Nat → Nat)
    (rd r1 r2 : Nat) (s' : Cpu) (mem' : Nat → Nat) :
    (execLrScW s mem false rd r1 r2 = some (s', mem', .ok ()) →
      s'.reserved_addr = some r1)
    ∧ (execLrScW s mem true rd r1 r2 = some (s', mem', .ok ()) →
      s'.reserved_addr = none)
    ∧ (∀ (e : Trap) (t : Cpu), s.handle_trap e = some t →
        t.reserved_addr = s.reserved_addr) := by
  refine ⟨?_, ?_, ?_⟩
  · intro h
    simp only [execLrScW] at h
    (repeat' split at h) <;> simp_all <;> (obtain ⟨rfl, rfl⟩ := h) <;> rfl
  · intro h
    simp only [execLrScW] at h
    (repeat' split at h) <;> simp_all <;> (obtain ⟨rfl, rfl⟩ := h) <;> rfl
  · intro e t h
    cases e <;>
      simp only [Cpu.handle_trap] at h <;>
      (repeat' split at h) <;>
      simp_all <;> (obtain rfl := h) <;> rfl

/-- Witness for claim C5: on the reset-state CPU, LR.W at address 8 yields
a state with the reservation set to 8, and a following SC.W at address 8
completes and yields a state with the reservation cleared. -/
theorem lr_sc_reservation_amended_witness :
    c5LrResult.reserved_addr = some 8 ∧ c5ScResult.reserved_addr = none := by
  constructor
  · exact (lr_sc_reservation_amended c5Cpu c5Mem 1 8 0 c5LrResult c5Mem).1 (by rfl)
  · exact (lr_sc_reservation_amended c5LrResult c5Mem 2 8 7 c5ScResult
      c5MemAfter).2.1 (by rfl)

/-- Claim C7 (failing input): with paging disabled and `pc = 2`, fetch
translates the pc to the physical address 2, which is not 4-aligned, and
returns `InstructionAddressMisaligned` with `fault_addr` still `None`; the
subsequent `Cpu::handle_trap` then panics on `fault_addr.unwrap()`
(modelled as `none`). -/
theorem fetch_misaligned_does_not_latch :
    Cpu.fetch c7Cpu c5Mem = some (c7Cpu, .error .InstructionAddressMisaligned)
      ∧ c7Cpu.fault_addr = none
      ∧ Cpu.handle_trap c7Cpu .InstructionAddressMisaligned = none := by
  refine ⟨by rfl, by rfl, by rfl⟩

/-- Claim C8 (failing input): the UART is idle (`iir = IIR_NIP`), ERBFI
(IER bit 0) is set and a byte is buffered, yet `tick` changes nothing and
reports no interrupt, because `is_ready_for_recieving` tests IER bit 2
(the literal `0x4`) instead of the declared `IER_ERBFI` bit.  Moreover,
with the bit the code actually tests (IER = 4) and two buffered bytes, the
NEWEST byte (66) is moved into RBR, not the oldest (Vec pop is LIFO). -/
theorem uart_tick_gated_on_wrong_ier_bit :
    c8Uart.tick = (c8Uart, false)
      ∧ c8Uart.iir = 1
      ∧ c8Uart.ier.testBit 0 = true
      ∧ c8Uart.is_interrupting = false
      ∧ c8Uart.is_ready_for_recieving = false
      ∧ ({ c8Uart with ier := 4, input_buf := [65, 66] } : Uart).tick.1.rbr = 66
      ∧ ({ c8Uart with ier := 4, input_buf := [65, 66] } : Uart).tick.2 = true := by
  decide

/-- Claim C9: for both virtio devices, writing 0 to the status register
(offset 0x70) resets the transport and device state to the
post-construction defaults while preserving the host channel handles, and
writing 1, 3, 0xb or 0xf sets the status register to exactly that value. -/
theorem virtio_status_write_correct (n : VirtioNet) (g : VirtioGpu) :
    ((n.write 0x70 4 0).map (fun d =>
        (d.virtio.status, d.virtio.driver_features, d.virtio.queue_sizes,
          d.virtio.readies, d.virtio.desc_addrs, d.virtio.driver_addrs,
          d.virtio.device_addrs, d.last_idxes, d.input_rx, d.output_tx))
      = some (0, [0, 0, 0, 0], [0, 0], [false, false], [0, 0], [0, 0], [0, 0],
          [0, 0], n.input_rx, n.output_tx))
    ∧ (n.write 0x70 4 1).map (fun d => d.virtio.status) = some 1
    ∧ (n.write 0x70 4 3).map (fun d => d.virtio.status) = some 3
    ∧ (n.write 0x70 4 0xb).map (fun d => d.virtio.status) = some 0xb
    ∧ (n.write 0x70 4 0xf).map (fun d => d.virtio.status) = some 0xf
    ∧ ((g.write 0x70 4 0).map (fun d =>
        (d.virtio.status, d.virtio.driver_features, d.virtio.queue_sizes,
          d.virtio.readies, d.virtio.desc_addrs, d.virtio.driver_addrs,
          d.virtio.device_addrs, d.last_idxes, d.resources, d.scanouts,
          d.output_tx))
      = some (0, [0, 0, 0, 0], [0, 0], [false, false], [0, 0], [0, 0], [0, 0],
          [0, 0], [], [{}], g.output_tx))
    ∧ (g.write 0x70 4 1).map (fun d => d.virtio.status) = some 1
    ∧ (g.write 0x70 4 3).map (fun d => d.virtio.status) = some 3
    ∧ (g.write 0x70 4 0xb).map (fun d => d.virtio.status) = some 0xb
    ∧ (g.write 0x70 4 0xf).map (fun d => d.virtio.status) = some 0xf := by
  refine ⟨rfl, ?_, ?_, ?_, ?_, rfl, ?_, ?_, ?_, ?_⟩ <;>
    simp [VirtioNet.write, VirtioGpu.write, VirtioMmio.write]

/-- Witness for claim C4: with MPIE set and MPP = User before `mret`, the
restored privilege is not Machine and MPRV ends up clear. -/
theorem mret_sret_restore_correct_witness :
    (({ mstatus := 0x80 } : Csr).handle_mret.2 ≠ 3)
      ∧ ({ mstatus := 0x80 } : Csr).handle_mret.1.mstatus.testBit 17 = false :=
  ⟨by decide, (mret_sret_restore_correct { mstatus := 0x80 }).1.2.2.2.2.2 (by decide)⟩

/-- Witness for claim C3: a breakpoint from User mode with a reset CSR
state (no delegation) is handled at Machine, and the written mepc is
4-aligned. -/
theorem handle_trap_entry_correct_witness :
    ((({} : Csr).handle_trap Priv.User Trap.BreakPoint 7 0).2.2 = Priv.Machine)
      ∧ (({} : Csr).handle_trap Priv.User Trap.BreakPoint 7 0).1.mepc % 4 = 0 := by
  have h := handle_trap_entry_correct ({} : Csr) Priv.User Trap.BreakPoint 7 0
  have hm := h.1.mpr (Or.inr (Or.inr ⟨by decide, by decide⟩))
  exact ⟨hm, (h.2.2.1 hm).1⟩
